import Mathlib

/-!
Verification of the filtered-event-feed contract of the FilePanel component
(`src/components/structures/FilePanel.js`) and the send state machine of the
forward dialog's per-room Entry (`src/components/views/dialogs/ForwardDialog.tsx`).

The FilePanel component is embedded as pure functions over an explicit client
environment.  Collaborators that live in the external messaging SDK (the filter
server, the filtered timeline set, the timeline window and the local search
index) are modelled from the specification's description of their interfaces.
-/

namespace FilePanelSpec

/-- A timeline event, carrying the fields the file filter and the encrypted
    prefetch care about: its type, whether its content has an attached URL, and
    whether it has been decrypted locally. -/
structure Event where
  eventId : String
  typ : String
  containsUrl : Bool
  decrypted : Bool
deriving DecidableEq, Repr

/-- The filter definition built by `fetchFileEventsServer`:
    `{"room": {"timeline": {"contains_url": true, "types": ["m.room.message"]}}}`.
    Only the timeline clause is populated, so the embedding records exactly its
    two fields. -/
structure FilterDefinition where
  containsUrl : Bool
  types : List String
deriving DecidableEq, Repr

/-- The definition `FilePanel.fetchFileEventsServer` installs:
    `contains_url: true`, `types: ["m.room.message"]`. -/
def fileFilterDefinition : FilterDefinition :=
  { containsUrl := true, types := ["m.room.message"] }

/-- The filter name `FilePanel.fetchFileEventsServer` builds:
    `"FILTER_FILES_" + client.credentials.userId`. -/
def filterName (userId : String) : String :=
  "FILTER_FILES_" ++ userId

/-- A `Matrix.Filter`: owner, definition, and the server-assigned identifier
    once known. -/
structure MFilter where
  userId : String
  definition : FilterDefinition
  filterId : Option Nat
deriving DecidableEq, Repr

/-- An event matches the file filter definition when its content has a URL
    (if the definition demands one) and its type is among the listed types. -/
def eventMatchesFilter (d : FilterDefinition) (e : Event) : Bool :=
  (!d.containsUrl || e.containsUrl) && d.types.contains e.typ

/-- One filter registered on the server: its name, definition and identifier. -/
structure FilterEntry where
  name : String
  definition : FilterDefinition
  id : Nat
deriving DecidableEq, Repr

/-- Modelled from the spec: the server-side filter store behind
    `getOrCreateFilter(name, spec) -> filterId` ("created once per
    (user, purpose) pair and cached by that pair"). -/
structure FilterStore where
  filters : List FilterEntry
  nextId : Nat
deriving DecidableEq, Repr

/-- Modelled from the spec: `getOrCreateFilter` returns the identifier of an
    existing filter of that name, or registers the definition under a fresh
    identifier ("creation is idempotent ... resolving to the same
    server-assigned identifier"). -/
def getOrCreateFilter (s : FilterStore) (name : String) (defn : FilterDefinition) :
    Nat × FilterStore :=
  match s.filters.find? (fun e => e.name == name) with
  | some e => (e.id, s)
  | none =>
      (s.nextId,
       { filters := s.filters ++ [{ name := name, definition := defn, id := s.nextId }],
         nextId := s.nextId + 1 })

/-- A room as the panel sees it: just its identifier (membership and encryption
    are answered by the client). -/
structure Room where
  roomId : String
deriving DecidableEq, Repr

/-- A filtered timeline set: one room, one filter, and its live timeline. -/
structure TimelineSet where
  roomId : String
  filter : MFilter
  liveTimeline : List Event
deriving DecidableEq, Repr

/-- Modelled from the spec: `getOrCreateFilteredTimelineSet(filter)` hands back
    a fresh filtered view over the room's event stream for that filter. -/
def getOrCreateFilteredTimelineSet (room : Room) (f : MFilter) : TimelineSet :=
  { roomId := room.roomId, filter := f, liveTimeline := [] }

/-- Modelled from the spec: the local search index, a "client-side store of
    decrypted events used to serve history without re-decrypting via network
    fetch".  `fileEventPage r n` is the first `n` pages of locally indexed file
    events of room `r`; every event it holds is decrypted. -/
structure EventIndex where
  fileEventPage : String → Nat → List Event
  decryptedOnly : ∀ r n e, e ∈ fileEventPage r n → e.decrypted = true

/-- The client session environment (`MatrixClientPeg.get()`): user identity,
    guest flag, the room store, the per-room encryption flag, the server's
    filter store, and whether the network call to the filter server succeeds. -/
structure Client where
  userId : String
  guest : Bool
  rooms : String → Option Room
  roomEncrypted : String → Bool
  filterServer : FilterStore
  filterServerUp : Bool

/-- An observable step of `updateTimelineSet`: a filter-server call, a call to
    the index's `populateFileTimeline`, the `setState` exposing the timeline
    set, or a logged error. -/
inductive TraceStep where
  | callGetOrCreateFilter (name : String) (defn : FilterDefinition)
  | callPopulate (roomId : String) (limit : Nat)
  | setTimelineSet
  | logError
deriving DecidableEq, Repr

/-- The component state of the panel: `this.state.timelineSet` and
    `this.noRoom`. -/
structure PanelState where
  timelineSet : Option TimelineSet
  noRoom : Bool
deriving DecidableEq, Repr

/-- `getInitialState`: `timelineSet: null` (and `noRoom` unset, hence falsy). -/
def initialPanelState : PanelState :=
  { timelineSet := none, noRoom := false }

/-- `FilePanel.fetchFileEventsServer`: build the file filter for the user,
    obtain its server identifier, and materialize the filtered timeline set.
    A failing filter-server call yields no timeline set.  The second component
    is the trace of external calls made. -/
def fetchFileEventsServer (c : Client) (room : Room) :
    Option TimelineSet × List TraceStep :=
  let name := filterName c.userId
  let defn := fileFilterDefinition
  if c.filterServerUp then
    let fid := (getOrCreateFilter c.filterServer name defn).1
    let filter : MFilter := { userId := c.userId, definition := defn, filterId := some fid }
    (some (getOrCreateFilteredTimelineSet room filter),
     [TraceStep.callGetOrCreateFilter name defn])
  else
    (none, [TraceStep.callGetOrCreateFilter name defn])

/-- `FilePanel.updateTimelineSet`: resolve the room (setting `noRoom`); if
    present, fetch the filtered timeline set, pre-populate it from the local
    index when the room is encrypted and an index exists, and expose it via
    `setState`; any failure is logged and leaves the state untouched.  Returns
    the new panel state and the trace of observable steps. -/
def updateTimelineSet (c : Client) (idx : Option EventIndex) (st : PanelState)
    (roomId : String) : PanelState × List TraceStep :=
  match c.rooms roomId with
  | none => ({ st with noRoom := true }, [TraceStep.logError])
  | some room =>
      let st1 : PanelState := { st with noRoom := false }
      match fetchFileEventsServer c room with
      | (some ts, tr) =>
          match c.roomEncrypted roomId, idx with
          | true, some index =>
              let ts2 := { ts with liveTimeline := index.fileEventPage roomId 1 }
              ({ st1 with timelineSet := some ts2 },
               tr ++ [TraceStep.callPopulate roomId 1, TraceStep.setTimelineSet])
          | _, _ =>
              ({ st1 with timelineSet := some ts }, tr ++ [TraceStep.setTimelineSet])
      | (none, tr) => (st1, tr ++ [TraceStep.logError])

/-- Where `FilePanel.onPaginationRequest` routes a pagination request: to the
    index's `paginateTimelineWindow` (with the resolved room, the window, the
    direction and the limit) or to the window's own `paginate` (with the
    direction and the limit).  The window is identified abstractly by `W`. -/
inductive PaginationRoute (W : Type) where
  | viaIndex (room : Option Room) (window : W) (dir : Bool) (limit : Nat)
  | direct (window : W) (dir : Bool) (limit : Nat)

/-- `FilePanel.onPaginationRequest`: encrypted room with an available index is
    served by the index, everything else directly by the timeline window. -/
def onPaginationRequest {W : Type} (c : Client) (idx : Option EventIndex)
    (roomId : String) (window : W) (dir : Bool) (limit : Nat) : PaginationRoute W :=
  if c.roomEncrypted roomId && idx.isSome then
    PaginationRoute.viaIndex (c.rooms roomId) window dir limit
  else
    PaginationRoute.direct window dir limit

/-- The four shapes `FilePanel.render` can produce. -/
inductive RenderOutcome where
  | registerBlocked
  | mustJoin
  | loading
  | feed (ts : TimelineSet)
deriving DecidableEq, Repr

/-- `FilePanel.render`: guests get the register message; otherwise `noRoom`
    gives the join message; otherwise a set timeline set is rendered as the
    feed, and a null one as the loading spinner. -/
def render (c : Client) (st : PanelState) : RenderOutcome :=
  if c.guest then RenderOutcome.registerBlocked
  else if st.noRoom then RenderOutcome.mustJoin
  else
    match st.timelineSet with
    | some ts => RenderOutcome.feed ts
    | none => RenderOutcome.loading

/-- Modelled from the spec: the pagination window over the unfiltered event
    history ("a cursor-bounded view enabling incremental fetch of older/newer
    history").  `events` is the window's current contents, oldest first;
    `olderStore` is the remaining older history (closest to the window first)
    and `newerStore` the remaining newer history; `pending` records an
    in-flight pagination on this window. -/
structure TimelineWindow where
  events : List Event
  olderStore : List Event
  newerStore : List Event
  pending : Bool
deriving DecidableEq, Repr

/-- The outcome of a `paginate` call: the appended flag, or the
    `AlreadyPaginating` rejection. -/
inductive PaginateResult where
  | appended (b : Bool)
  | alreadyPaginating
deriving DecidableEq, Repr

/-- Modelled from the spec: `paginate(feed, direction, limit) -> appended`.
    A window with a pagination already in flight rejects the call with
    `AlreadyPaginating` and no state change; otherwise up to `limit` events are
    moved from the relevant store onto the window (older events are prepended,
    newer appended), and the appended flag says whether any were. -/
def TimelineWindow.paginate (w : TimelineWindow) (backwards : Bool) (limit : Nat) :
    PaginateResult × TimelineWindow :=
  if w.pending then (PaginateResult.alreadyPaginating, w)
  else if backwards then
    let batch := w.olderStore.take limit
    (PaginateResult.appended (!batch.isEmpty),
     { w with events := batch.reverse ++ w.events, olderStore := w.olderStore.drop limit })
  else
    let batch := w.newerStore.take limit
    (PaginateResult.appended (!batch.isEmpty),
     { w with events := w.events ++ batch, newerStore := w.newerStore.drop limit })

/-- Modelled from the spec: live delivery appends a newly received event to the
    feed exactly when it matches the file filter ("the live timeline only grows
    by appending newly received matching events"). -/
def TimelineWindow.addLiveEvent (w : TimelineWindow) (e : Event) : TimelineWindow :=
  if eventMatchesFilter fileFilterDefinition e then { w with events := w.events ++ [e] }
  else w

/-- An operation a feed undergoes after acquisition: a pagination step or a
    live-event delivery. -/
inductive FeedOp where
  | paginateStep (backwards : Bool) (limit : Nat)
  | liveEvent (e : Event)
deriving DecidableEq, Repr

/-- Apply one feed operation to a window. -/
def applyOp (w : TimelineWindow) : FeedOp → TimelineWindow
  | FeedOp.paginateStep b l => (w.paginate b l).2
  | FeedOp.liveEvent e => w.addLiveEvent e

/-- Apply a sequence of feed operations, in order. -/
def applyOps (w : TimelineWindow) (ops : List FeedOp) : TimelineWindow :=
  ops.foldl applyOp w

/-- `xs` occurs as a contiguous segment of `ys` (so the relative order of the
    events of `xs` is intact in `ys`). -/
def SubSeg (xs ys : List Event) : Prop :=
  ∃ as bs, ys = as ++ (xs ++ bs)

end FilePanelSpec

namespace ForwardDialogSpec

/-- The `SendState` enum of the forward dialog's Entry. -/
inductive SendState where
  | canSend
  | sending
  | sent
  | failed
deriving DecidableEq, Repr

/-- The send button is enabled exactly in `CanSend`
    (`disabled={sendState !== SendState.CanSend}`). -/
def sendButtonEnabled : SendState → Bool
  | SendState.canSend => true
  | _ => false

/-- An event hitting one Entry: a click on its button, or the resolution or
    rejection of the `send()` promise started by a click. -/
inductive EntryEvent where
  | click
  | sendResolved
  | sendRejected
deriving DecidableEq, Repr

/-- One step of the Entry: a click on the enabled button moves `CanSend` to
    `Sending` and invokes `send()` (the boolean); the promise's resolution or
    rejection moves `Sending` to `Sent` or `Failed`; everything else — in
    particular a click while the button is disabled — is a no-op. -/
def entryStep : SendState → EntryEvent → SendState × Bool
  | SendState.canSend, EntryEvent.click => (SendState.sending, true)
  | SendState.sending, EntryEvent.sendResolved => (SendState.sent, false)
  | SendState.sending, EntryEvent.sendRejected => (SendState.failed, false)
  | s, _ => (s, false)

/-- Run an event sequence from a state, counting how often `send()` is
    invoked. -/
def runEntry (s : SendState) : List EntryEvent → SendState × Nat
  | [] => (s, 0)
  | e :: es =>
      let r := entryStep s e
      let rest := runEntry r.1 es
      (rest.1, (if r.2 then 1 else 0) + rest.2)

end ForwardDialogSpec

namespace FilePanelSpec

/-! ### Concrete instances used by witnesses -/

/-- A sample decrypted file event. -/
def evtEx : Event :=
  { eventId := "$e1:example.org", typ := "m.room.message", containsUrl := true,
    decrypted := true }

/-- A sample room. -/
def roomEx : Room := { roomId := "!abc:example.org" }

/-- A sample local search index whose every page is the single decrypted file
    event `evtEx`. -/
def indexEx : EventIndex where
  fileEventPage := fun _ _ => [evtEx]
  decryptedOnly := by
    intro r n e h
    rcases List.mem_singleton.mp h with rfl
    rfl

/-- A guest client knowing no rooms. -/
def guestClientEx : Client :=
  { userId := "@guest:example.org", guest := true, rooms := fun _ => none,
    roomEncrypted := fun _ => false, filterServer := { filters := [], nextId := 0 },
    filterServerUp := true }

/-- A non-guest client knowing no rooms. -/
def strangerClientEx : Client :=
  { userId := "@bob:example.org", guest := false, rooms := fun _ => none,
    roomEncrypted := fun _ => false, filterServer := { filters := [], nextId := 0 },
    filterServerUp := true }

/-- A non-guest client joined to `roomEx`, with encryption on everywhere and a
    reachable filter server. -/
def encJoinedClientEx : Client :=
  { userId := "@alice:example.org", guest := false,
    rooms := fun r => if r == "!abc:example.org" then some roomEx else none,
    roomEncrypted := fun _ => true, filterServer := { filters := [], nextId := 0 },
    filterServerUp := true }

/-- A non-guest client joined to `roomEx`, unencrypted, whose filter-server
    call fails. -/
def downClientEx : Client :=
  { userId := "@carol:example.org", guest := false,
    rooms := fun r => if r == "!abc:example.org" then some roomEx else none,
    roomEncrypted := fun _ => false, filterServer := { filters := [], nextId := 0 },
    filterServerUp := false }

/-! ### C5: idempotent filter creation -/

/-- `getOrCreateFilter` run twice with one name hands back the same identifier
    and leaves the store of the first run untouched. -/
theorem getOrCreateFilter_idem (s : FilterStore) (name : String) (defn : FilterDefinition) :
    (getOrCreateFilter (getOrCreateFilter s name defn).2 name defn).1
      = (getOrCreateFilter s name defn).1 ∧
    (getOrCreateFilter (getOrCreateFilter s name defn).2 name defn).2
      = (getOrCreateFilter s name defn).2 := by
  unfold getOrCreateFilter
  cases h : s.filters.find? (fun e => e.name == name) with
  | some e => simp [h]
  | none => simp [h, List.find?_append]

/-- C5: every feed acquisition issues exactly one filter-server call, with the
    filter name "FILTER_FILES_" plus the user id and the fixed file-filter
    definition — identically across acquisitions for the same user — and the
    server-side get-or-create resolves a repeated request to the same
    identifier without registering a second filter. -/
theorem acquireFeed_filter_idempotent (c : Client) (room1 room2 : Room) (s : FilterStore) :
    (fetchFileEventsServer c room1).2
      = [TraceStep.callGetOrCreateFilter (filterName c.userId) fileFilterDefinition] ∧
    (fetchFileEventsServer c room1).2 = (fetchFileEventsServer c room2).2 ∧
    (getOrCreateFilter (getOrCreateFilter s (filterName c.userId) fileFilterDefinition).2
        (filterName c.userId) fileFilterDefinition).1
      = (getOrCreateFilter s (filterName c.userId) fileFilterDefinition).1 ∧
    (getOrCreateFilter (getOrCreateFilter s (filterName c.userId) fileFilterDefinition).2
        (filterName c.userId) fileFilterDefinition).2
      = (getOrCreateFilter s (filterName c.userId) fileFilterDefinition).2 := by
  refine ⟨?_, ?_, (getOrCreateFilter_idem s _ _).1, (getOrCreateFilter_idem s _ _).2⟩
  · unfold fetchFileEventsServer
    by_cases h : c.filterServerUp <;> simp [h]
  · unfold fetchFileEventsServer
    by_cases h : c.filterServerUp <;> simp [h]

/-! ### C2: pagination routing -/

/-- C2: a pagination request on an encrypted room with an available index is
    delegated to the index with the resolved room, the window, the direction
    and the limit; otherwise the window's own paginate serves it with the same
    direction and limit. -/
theorem onPaginationRequest_routing {W : Type} (c : Client) (idx : Option EventIndex)
    (roomId : String) (window : W) (dir : Bool) (limit : Nat) :
    (c.roomEncrypted roomId = true → idx.isSome = true →
      onPaginationRequest c idx roomId window dir limit
        = PaginationRoute.viaIndex (c.rooms roomId) window dir limit) ∧
    (c.roomEncrypted roomId = false ∨ idx = none →
      onPaginationRequest c idx roomId window dir limit
        = PaginationRoute.direct window dir limit) := by
  constructor
  · intro henc hidx
    unfold onPaginationRequest
    simp [henc, hidx]
  · intro h
    unfold onPaginationRequest
    cases h with
    | inl h => simp [h]
    | inr h => simp [h]

/-- Witness for C2 at concrete inputs: the encrypted client with an index goes
    via the index, the unencrypted one goes direct. -/
theorem onPaginationRequest_routing_witness :
    onPaginationRequest encJoinedClientEx (some indexEx) "!abc:example.org" (0 : Nat) true 20
      = PaginationRoute.viaIndex (some roomEx) (0 : Nat) true 20 ∧
    onPaginationRequest strangerClientEx (some indexEx) "!abc:example.org" (0 : Nat) true 20
      = PaginationRoute.direct (0 : Nat) true 20 := by
  constructor
  · have h := (onPaginationRequest_routing encJoinedClientEx (some indexEx)
      "!abc:example.org" (0 : Nat) true 20).1 rfl rfl
    rw [h]
    rfl
  · exact (onPaginationRequest_routing strangerClientEx (some indexEx)
      "!abc:example.org" (0 : Nat) true 20).2 (Or.inl rfl)

/-! ### C9: render totality and precedence -/

/-- C9: render always yields exactly one of the four outcomes, with the guest
    check first, then the no-room check, then the timeline-set check; the
    loading spinner appears exactly for a non-guest with an existing room and
    a null timeline set. -/
theorem render_total_and_precedence (c : Client) (st : PanelState) :
    (render c st = RenderOutcome.registerBlocked ↔ c.guest = true) ∧
    (render c st = RenderOutcome.mustJoin ↔ c.guest = false ∧ st.noRoom = true) ∧
    (render c st = RenderOutcome.loading
      ↔ c.guest = false ∧ st.noRoom = false ∧ st.timelineSet = none) ∧
    (∀ ts, render c st = RenderOutcome.feed ts
      ↔ c.guest = false ∧ st.noRoom = false ∧ st.timelineSet = some ts) := by
  cases hg : c.guest <;> cases hn : st.noRoom <;> cases hts : st.timelineSet <;>
    simp [render, hg, hn, hts]

/-- Witness for C9 at a concrete input: a fresh panel of a non-guest renders
    the loading spinner. -/
theorem render_total_and_precedence_witness :
    render strangerClientEx initialPanelState = RenderOutcome.loading :=
  (render_total_and_precedence strangerClientEx initialPanelState).2.2.1.mpr
    ⟨rfl, rfl, rfl⟩

/-! ### C1: missing room short-circuits acquisition -/

/-- Counterexample to C1 as stated: for a guest whose room store has no room
    object for the requested room, acquisition makes no external call and the
    state stays null, but the view shows the register-to-use message, not the
    must-join message — the guest check takes precedence in render. -/
theorem notJoined_render_counterexample :
    guestClientEx.rooms "!xyz:example.org" = none ∧
    (updateTimelineSet guestClientEx none initialPanelState "!xyz:example.org").2
      = [TraceStep.logError] ∧
    render guestClientEx
        (updateTimelineSet guestClientEx none initialPanelState "!xyz:example.org").1
      ≠ RenderOutcome.mustJoin := by
  refine ⟨rfl, rfl, ?_⟩
  intro h
  simp [render, updateTimelineSet, guestClientEx] at h

/-- C1 (amended): when the room store has no room object, acquisition makes no
    filter-server, network or index call (the only observable step is the
    logged error), the timeline-set state is unchanged, `noRoom` is set, and —
    provided the user is not a guest — the view reports the user must join the
    room. -/
theorem notJoined_no_network (c : Client) (idx : Option EventIndex) (st : PanelState)
    (roomId : String) (h : c.rooms roomId = none) :
    (updateTimelineSet c idx st roomId).2 = [TraceStep.logError] ∧
    (updateTimelineSet c idx st roomId).1.timelineSet = st.timelineSet ∧
    (updateTimelineSet c idx st roomId).1.noRoom = true ∧
    (c.guest = false →
      render c (updateTimelineSet c idx st roomId).1 = RenderOutcome.mustJoin) := by
  unfold updateTimelineSet
  rw [h]
  refine ⟨rfl, rfl, rfl, ?_⟩
  intro hg
  simp [render, hg]

/-- Witness for C1 (amended) at a concrete input: a non-guest client with an
    empty room store. -/
theorem notJoined_no_network_witness :
    strangerClientEx.rooms "!xyz:example.org" = none ∧
    (updateTimelineSet strangerClientEx none initialPanelState "!xyz:example.org").2
      = [TraceStep.logError] ∧
    render strangerClientEx
        (updateTimelineSet strangerClientEx none initialPanelState "!xyz:example.org").1
      = RenderOutcome.mustJoin :=
  ⟨rfl,
   (notJoined_no_network strangerClientEx none initialPanelState "!xyz:example.org" rfl).1,
   (notJoined_no_network strangerClientEx none initialPanelState
      "!xyz:example.org" rfl).2.2.2 rfl⟩

/-! ### C3: encrypted rooms are pre-populated from the index -/

/-- C3: for a joined encrypted room with an available index, acquisition calls
    the index to populate one page of the live timeline, and does so before the
    timeline set is exposed via setState; the exposed live timeline is exactly
    the index's first page, hence contains only locally decrypted events. -/
theorem encrypted_feed_prepopulated (c : Client) (index : EventIndex) (st : PanelState)
    (roomId : String) (room : Room)
    (hroom : c.rooms roomId = some room)
    (henc : c.roomEncrypted roomId = true)
    (hup : c.filterServerUp = true) :
    (updateTimelineSet c (some index) st roomId).2
      = [TraceStep.callGetOrCreateFilter (filterName c.userId) fileFilterDefinition,
         TraceStep.callPopulate roomId 1, TraceStep.setTimelineSet] ∧
    ∃ ts, (updateTimelineSet c (some index) st roomId).1.timelineSet = some ts ∧
      ts.liveTimeline = index.fileEventPage roomId 1 ∧
      ∀ e ∈ ts.liveTimeline, e.decrypted = true := by
  unfold updateTimelineSet fetchFileEventsServer
  rw [hroom]
  simp only [hup, henc, if_pos]
  refine ⟨rfl, ?_⟩
  refine ⟨_, rfl, rfl, ?_⟩
  intro e he
  exact index.decryptedOnly roomId 1 e he

/-- Witness for C3 at a concrete input: the encrypted joined client with the
    sample index exposes exactly the index's page of decrypted events, after
    calling populate. -/
theorem encrypted_feed_prepopulated_witness :
    (updateTimelineSet encJoinedClientEx (some indexEx) initialPanelState
        "!abc:example.org").2
      = [TraceStep.callGetOrCreateFilter (filterName encJoinedClientEx.userId)
           fileFilterDefinition,
         TraceStep.callPopulate "!abc:example.org" 1, TraceStep.setTimelineSet] ∧
    ∃ ts, (updateTimelineSet encJoinedClientEx (some indexEx) initialPanelState
        "!abc:example.org").1.timelineSet = some ts ∧
      ts.liveTimeline = indexEx.fileEventPage "!abc:example.org" 1 ∧
      ∀ e ∈ ts.liveTimeline, e.decrypted = true :=
  encrypted_feed_prepopulated encJoinedClientEx indexEx initialPanelState
    "!abc:example.org" roomEx rfl rfl rfl

/-! ### C4: acquisition failure is terminal -/

/-- C4: when the filter-server call fails during acquisition on an existing
    room, the trace shows exactly one creation attempt followed by exactly one
    logged error — no retry — the timeline-set state is unchanged, and a
    non-guest caller whose state was null still renders the empty fallback
    (loading) branch rather than a feed. -/
theorem feed_error_terminal (c : Client) (idx : Option EventIndex) (st : PanelState)
    (roomId : String) (room : Room)
    (hroom : c.rooms roomId = some room)
    (hfail : c.filterServerUp = false) :
    (updateTimelineSet c idx st roomId).2
      = [TraceStep.callGetOrCreateFilter (filterName c.userId) fileFilterDefinition,
         TraceStep.logError] ∧
    (updateTimelineSet c idx st roomId).1.timelineSet = st.timelineSet ∧
    (c.guest = false → st.timelineSet = none →
      render c (updateTimelineSet c idx st roomId).1 = RenderOutcome.loading) := by
  have key : updateTimelineSet c idx st roomId
      = ({ st with noRoom := false },
         [TraceStep.callGetOrCreateFilter (filterName c.userId) fileFilterDefinition,
          TraceStep.logError]) := by
    unfold updateTimelineSet fetchFileEventsServer
    rw [hroom, hfail]
    rfl
  rw [key]
  refine ⟨rfl, rfl, ?_⟩
  intro hg hts
  simp [render, hg, hts]

/-- Witness for C4 at a concrete input: the joined client with a failing
    filter server logs once and keeps rendering the fallback branch. -/
theorem feed_error_terminal_witness :
    (updateTimelineSet downClientEx none initialPanelState "!abc:example.org").2
      = [TraceStep.callGetOrCreateFilter (filterName downClientEx.userId)
           fileFilterDefinition,
         TraceStep.logError] ∧
    render downClientEx
        (updateTimelineSet downClientEx none initialPanelState "!abc:example.org").1
      = RenderOutcome.loading :=
  ⟨(feed_error_terminal downClientEx none initialPanelState "!abc:example.org" roomEx
      rfl rfl).1,
   (feed_error_terminal downClientEx none initialPanelState "!abc:example.org" roomEx
      rfl rfl).2.2 rfl rfl⟩

/-! ### C6: pagination is serialized per feed -/

/-- C6: a paginate call on a window whose pagination is already in flight is
    rejected with AlreadyPaginating and the window is returned unchanged. -/
theorem paginate_already_paginating (w : TimelineWindow) (backwards : Bool) (limit : Nat)
    (h : w.pending = true) :
    w.paginate backwards limit = (PaginateResult.alreadyPaginating, w) := by
  unfold TimelineWindow.paginate
  rw [h]
  rfl

/-- A window with a pagination in flight over one older stored event. -/
def pendingWindowEx : TimelineWindow :=
  { events := [], olderStore := [evtEx], newerStore := [], pending := true }

/-- Witness for C6 at a concrete input: the busy window rejects the repeated
    call unchanged. -/
theorem paginate_already_paginating_witness :
    pendingWindowEx.paginate true 20 = (PaginateResult.alreadyPaginating, pendingWindowEx) :=
  paginate_already_paginating pendingWindowEx true 20 rfl

/-! ### C7: the appended flag is exact -/

/-- C7: an unblocked paginate call returns the appended flag, true exactly when
    the window gained events; paginating backwards with limit 20 adds at most
    20 events and reports true exactly when older history exists; with no older
    server data left, paginating backwards changes nothing and reports false. -/
theorem paginate_appended_flag (w : TimelineWindow) (backwards : Bool) (limit : Nat)
    (h : w.pending = false) :
    (∃ b, (w.paginate backwards limit).1 = PaginateResult.appended b ∧
      (b = true ↔ w.events.length < (w.paginate backwards limit).2.events.length)) ∧
    ((w.paginate true 20).2.events.length ≤ w.events.length + 20) ∧
    ((w.paginate true 20).1 = PaginateResult.appended (!w.olderStore.isEmpty)) ∧
    (w.olderStore = [] → w.paginate true limit = (PaginateResult.appended false, w)) := by
  unfold TimelineWindow.paginate
  rw [h]
  refine ⟨?_, ?_, ?_, ?_⟩
  · cases backwards with
    | true =>
        refine ⟨!(w.olderStore.take limit).isEmpty, by simp, ?_⟩
        simp [List.isEmpty_iff, List.length_eq_zero, List.length_pos,
          Nat.pos_iff_ne_zero]
    | false =>
        refine ⟨!(w.newerStore.take limit).isEmpty, by simp, ?_⟩
        simp [List.isEmpty_iff, List.length_eq_zero, List.length_pos,
          Nat.pos_iff_ne_zero]
  · simp
    omega
  · simp
    cases hos : w.olderStore <;> simp [hos]
  · intro hempty
    cases w with
    | mk ev old new pend =>
        simp at hempty h
        subst hempty h
        simp

/-- An idle window with one older stored event. -/
def idleWindowEx : TimelineWindow :=
  { events := [], olderStore := [evtEx], newerStore := [], pending := false }

/-- Witness for C7 at a concrete input: the idle window's result carries the
    exact appended flag. -/
theorem paginate_appended_flag_witness :
    idleWindowEx.pending = false ∧
    (∃ b, (idleWindowEx.paginate true 20).1 = PaginateResult.appended b ∧
      (b = true ↔ idleWindowEx.events.length < (idleWindowEx.paginate true 20).2.events.length)) :=
  ⟨rfl, (paginate_appended_flag idleWindowEx true 20 rfl).1⟩

/-! ### C8: pagination and live delivery never reorder fetched events -/

theorem subSeg_refl (xs : List Event) : SubSeg xs xs :=
  ⟨[], [], by simp⟩

theorem subSeg_trans {xs ys zs : List Event} (h1 : SubSeg xs ys) (h2 : SubSeg ys zs) :
    SubSeg xs zs := by
  obtain ⟨a1, b1, rfl⟩ := h1
  obtain ⟨a2, b2, rfl⟩ := h2
  exact ⟨a2 ++ a1, b1 ++ b2, by simp⟩

/-- One feed operation keeps the window's current events as a contiguous
    segment: pagination only prepends older or appends newer events, and live
    delivery only appends. -/
theorem applyOp_subSeg (w : TimelineWindow) (op : FeedOp) :
    SubSeg w.events (applyOp w op).events := by
  cases op with
  | paginateStep b l =>
      show SubSeg w.events (w.paginate b l).2.events
      unfold TimelineWindow.paginate
      by_cases hp : w.pending
      · simp only [hp, if_true]
        exact subSeg_refl _
      · simp only [hp, if_false, Bool.false_eq_true]
        cases b with
        | true => exact ⟨(w.olderStore.take l).reverse, [], by simp⟩
        | false => exact ⟨[], w.newerStore.take l, by simp⟩
  | liveEvent e =>
      show SubSeg w.events (w.addLiveEvent e).events
      unfold TimelineWindow.addLiveEvent
      by_cases hm : eventMatchesFilter fileFilterDefinition e = true
      · simp only [hm, if_true]
        exact ⟨[], [e], rfl⟩
      · simp only [hm, if_false]
        exact subSeg_refl _

/-- C8: across any sequence of pagination steps and live-event deliveries, the
    events already in the feed stay a contiguous segment, in their original
    relative order, of the resulting feed; and a live delivery either leaves
    the timeline unchanged or appends exactly the newly received event, which
    then matches the file filter. -/
theorem feed_order_preserved (w : TimelineWindow) (ops : List FeedOp) :
    SubSeg w.events (applyOps w ops).events ∧
    (∀ e, (w.addLiveEvent e).events = w.events ∨
      ((w.addLiveEvent e).events = w.events ++ [e] ∧
        eventMatchesFilter fileFilterDefinition e = true)) := by
  constructor
  · induction ops generalizing w with
    | nil => exact subSeg_refl _
    | cons op ops ih => exact subSeg_trans (applyOp_subSeg w op) (ih (applyOp w op))
  · intro e
    unfold TimelineWindow.addLiveEvent
    by_cases hm : eventMatchesFilter fileFilterDefinition e = true
    · right
      simp [hm]
    · left
      simp [hm]

end FilePanelSpec

namespace ForwardDialogSpec

/-- From any state other than CanSend, a step never invokes `send()` and never
    reaches CanSend again. -/
theorem entryStep_stuck (s : SendState) (e : EntryEvent) (h : s ≠ SendState.canSend) :
    (entryStep s e).1 ≠ SendState.canSend ∧ (entryStep s e).2 = false := by
  cases s with
  | canSend => exact absurd rfl h
  | sending => cases e <;> simp [entryStep]
  | sent => cases e <;> simp [entryStep]
  | failed => cases e <;> simp [entryStep]

/-- Away from CanSend, no event sequence ever invokes `send()`. -/
theorem runEntry_zero_of_stuck (evs : List EntryEvent) (s : SendState)
    (h : s ≠ SendState.canSend) : (runEntry s evs).2 = 0 := by
  induction evs generalizing s with
  | nil => rfl
  | cons e es ih =>
      obtain ⟨h1, h2⟩ := entryStep_stuck s e h
      simp [runEntry, h2, ih _ h1]

/-- C10: in the forward dialog's Entry, the send button is enabled exactly in
    CanSend; a click there moves the state to Sending and invokes `send()`;
    no step from a state other than CanSend ever returns to CanSend; hence any
    event sequence starting at CanSend invokes `send()` at most once. -/
theorem entry_send_at_most_once :
    (∀ s, sendButtonEnabled s = true ↔ s = SendState.canSend) ∧
    entryStep SendState.canSend EntryEvent.click = (SendState.sending, true) ∧
    (∀ s e, s ≠ SendState.canSend → (entryStep s e).1 ≠ SendState.canSend) ∧
    (∀ evs, (runEntry SendState.canSend evs).2 ≤ 1) := by
  refine ⟨?_, rfl, ?_, ?_⟩
  · intro s
    cases s <;> simp [sendButtonEnabled]
  · intro s e h
    exact (entryStep_stuck s e h).1
  · intro evs
    induction evs with
    | nil => simp [runEntry]
    | cons e es ih =>
        cases e with
        | click =>
            have h0 : (runEntry SendState.sending es).2 = 0 :=
              runEntry_zero_of_stuck es SendState.sending (by simp)
            simp [runEntry, entryStep, h0]
        | sendResolved => simpa [runEntry, entryStep] using ih
        | sendRejected => simpa [runEntry, entryStep] using ih

/-- Witness for C10 at concrete inputs: from Sent a click cannot reach CanSend,
    and a double-click trace invokes `send()` at most once. -/
theorem entry_send_at_most_once_witness :
    (entryStep SendState.sent EntryEvent.click).1 ≠ SendState.canSend ∧
    (runEntry SendState.canSend
      [EntryEvent.click, EntryEvent.sendResolved, EntryEvent.click]).2 ≤ 1 :=
  ⟨entry_send_at_most_once.2.2.1 SendState.sent EntryEvent.click (by simp),
   entry_send_at_most_once.2.2.2
     [EntryEvent.click, EntryEvent.sendResolved, EntryEvent.click]⟩

end ForwardDialogSpec
